import Mathlib

/-!
Verification of the Smart Shop backend's product discovery / ranking engine,
its trend advisor, and its image intent resolution chain.

The JavaScript source is shallowly embedded:
* JS numbers that can legitimately be `Infinity` here (prices and distances)
  are modelled by `JsNum` (a real number or `inf`); other JS numbers are `ℝ`
  (or `ℚ` in the self-contained trend / classifier components, where all
  arithmetic is rational and proofs can be run by `decide`).
* nullable values are `Option`, thrown exceptions are `Except`,
  and each external collaborator's reply is an explicit input.
* `Array.prototype.sort` is modelled by a stable insertion sort; the
  comparator's `NaN` results (which the ECMAScript sort treats as `0`,
  i.e. "equal") are modelled explicitly, see `jsSub`.
-/

namespace SmartShop

/-- A JavaScript number that the ranking code may set to `Infinity`:
either a finite real or `inf` (`Number.POSITIVE_INFINITY`). -/
inductive JsNum where
  | fin (x : ℝ)
  | inf

/-- Sign of the JS expression `x - y` for two `JsNum`s, as used by the sort
comparator.  `none` models the result `NaN` (`Infinity - Infinity`), which
`Array.prototype.sort` then treats exactly like a zero comparator result. -/
noncomputable def jsSub : JsNum → JsNum → Option Ordering
  | JsNum.fin x, JsNum.fin y =>
      some (if x < y then Ordering.lt else if y < x then Ordering.gt else Ordering.eq)
  | JsNum.fin _, JsNum.inf => some Ordering.lt
  | JsNum.inf, JsNum.fin _ => some Ordering.gt
  | JsNum.inf, JsNum.inf => none

/-- Sign of the JS expression `x - y` for two plain (finite) numbers. -/
noncomputable def cmpReal (x y : ℝ) : Ordering :=
  if x < y then Ordering.lt else if y < x then Ordering.gt else Ordering.eq

/-- `toRad` from `findProducts`: `(v) => (v * Math.PI) / 180`. -/
noncomputable def toRad (v : ℝ) : ℝ := v * Real.pi / 180

/-- `Math.atan2 y x`, written out with the standard piecewise definition
(the source only ever calls it on non-negative arguments). -/
noncomputable def atan2 (y x : ℝ) : ℝ :=
  if 0 < x then Real.arctan (y / x)
  else if x < 0 ∧ 0 ≤ y then Real.arctan (y / x) + Real.pi
  else if x < 0 ∧ y < 0 then Real.arctan (y / x) - Real.pi
  else if x = 0 ∧ 0 < y then Real.pi / 2
  else if x = 0 ∧ y < 0 then -(Real.pi / 2)
  else 0

/-- The haversine value computed by `distanceKm` once all four coordinates
are present (Earth radius 6371 km), transcribed from the source. -/
noncomputable def haversine (lat1 lon1 lat2 lon2 : ℝ) : ℝ :=
  let dLat := toRad (lat2 - lat1)
  let dLon := toRad (lon2 - lon1)
  let a := Real.sin (dLat / 2) * Real.sin (dLat / 2) +
    Real.cos (toRad lat1) * Real.cos (toRad lat2) *
      Real.sin (dLon / 2) * Real.sin (dLon / 2)
  let c := 2 * atan2 (Real.sqrt a) (Real.sqrt (1 - a))
  6371 * c

/-- `distanceKm` from `findProducts`: any `null` coordinate yields
`Number.POSITIVE_INFINITY`, otherwise the haversine distance. -/
noncomputable def distanceKm (lat1 lon1 lat2 lon2 : Option ℝ) : JsNum :=
  match lat1, lon1, lat2, lon2 with
  | some φ1, some l1, some φ2, some l2 => JsNum.fin (haversine φ1 l1 φ2 l2)
  | _, _, _, _ => JsNum.inf

/-- The shop join embedded in a row of the `products` query
(`shops (name, contact_number, email, latitude, longitude)`). -/
structure ShopInfo where
  name : String
  contact_number : Option String
  email : Option String
  latitude : Option ℝ
  longitude : Option ℝ

/-- A row returned by the products query.  `price`/`rating` are `none` when
the stored value is absent or not a finite number (the two cases
`safeNumber` maps to its default). -/
structure ProductRow where
  name : String
  price : Option ℝ
  rating : Option ℝ
  shop_id : Nat
  shops : Option ShopInfo

/-- A shop row returned by the `nearby_shops` RPC (only `id` is read). -/
structure ShopRow where
  id : Nat

/-- One element of the `enriched` array built by the deterministic path:
`safeNumber(p.price, Infinity)`, `safeNumber(p.rating, 0)`, the joined shop
display fields, and the computed `distance_km`. -/
structure Enriched where
  product_name : String
  price : JsNum
  rating : ℝ
  shop_name : String
  shop_contact_number : Option String
  shop_email : Option String
  distance_km : JsNum

/-- `safeNumber` from `findProducts`: a finite number is kept, anything else
becomes the supplied default. -/
def safeNumber (v : Option ℝ) (d : JsNum) : JsNum :=
  match v with
  | some x => JsNum.fin x
  | none => d

/-- The body of `products.map(...)` building `enriched` in the deterministic
path of `findProducts`. -/
noncomputable def enrichOne (latitude longitude : ℝ) (p : ProductRow) : Enriched :=
  { product_name := p.name
    price := safeNumber p.price JsNum.inf
    rating := match safeNumber p.rating (JsNum.fin 0) with
      | JsNum.fin x => x
      | JsNum.inf => 0
    shop_name := match p.shops with
      | some s => s.name
      | none => "Unknown Shop"
    shop_contact_number := p.shops.bind (fun s => s.contact_number)
    shop_email := p.shops.bind (fun s => s.email)
    distance_km := distanceKm (some latitude) (some longitude)
      (p.shops.bind (fun s => s.latitude)) (p.shops.bind (fun s => s.longitude)) }

/-- The sort comparator of the deterministic path, as the `Ordering` that
`Array.prototype.sort` effectively acts on: distance difference first
(a `NaN` difference is an equal verdict and stops the comparison), then
price difference, then `b.rating - a.rating`. -/
noncomputable def cmpCand (a b : Enriched) : Ordering :=
  match jsSub a.distance_km b.distance_km with
  | none => Ordering.eq
  | some Ordering.lt => Ordering.lt
  | some Ordering.gt => Ordering.gt
  | some Ordering.eq =>
    match jsSub a.price b.price with
    | none => Ordering.eq
    | some Ordering.lt => Ordering.lt
    | some Ordering.gt => Ordering.gt
    | some Ordering.eq => cmpReal b.rating a.rating

/-- `a` may be placed no later than `b` by the sort (comparator verdict is
not `gt`).  `Array.prototype.sort` is stable, so the sort is modelled by a
stable insertion sort on this relation. -/
def candLe (a b : Enriched) : Prop := cmpCand a b ≠ Ordering.gt

noncomputable instance : DecidableRel candLe := fun a b => by
  unfold candLe; infer_instance

/-- The sorted candidate list of the deterministic path. -/
noncomputable def sortedCandidates (latitude longitude : ℝ)
    (products : List ProductRow) : List Enriched :=
  List.insertionSort candLe (products.map (enrichOne latitude longitude))

/-- One entry of the final `recommendations` array. -/
structure Recommendation where
  rank : Nat
  product_name : String
  price : Option ℝ
  rating : ℝ
  shop_name : String
  shop_contact_number : Option String
  shop_email : Option String
  distance_km : Option ℝ
  reason : String

/-- The uniform result shape of both ranking paths. -/
structure SearchResult where
  summary : String
  recommendations : List Recommendation

/-- `Number(x.toFixed(2))`: round to two decimals (ties away from zero
toward `+∞`, as specified for `toFixed`). -/
noncomputable def toFixed2 (x : ℝ) : ℝ := (⌊x * 100 + 1 / 2⌋ : ℤ) / 100

/-- The body of `.map((item, idx) => ...)` closing the deterministic path:
assign rank `idx + 1`, render `Infinity` price and distance as `null`,
round the finite distance to 2 decimals, fixed reason string. -/
noncomputable def mkRecommendation (idx : Nat) (item : Enriched) : Recommendation :=
  { rank := idx + 1
    product_name := item.product_name
    price := match item.price with
      | JsNum.inf => none
      | JsNum.fin p => some p
    rating := item.rating
    shop_name := item.shop_name
    shop_contact_number := item.shop_contact_number
    shop_email := item.shop_email
    distance_km := match item.distance_km with
      | JsNum.inf => none
      | JsNum.fin d => some (toFixed2 d)
    reason := "Ranked by distance, then price, then rating." }

/-- `ranked` of the deterministic path: sort, `slice(0, 3)`, decorate. -/
noncomputable def rankedRecommendations (latitude longitude : ℝ)
    (products : List ProductRow) : List Recommendation :=
  ((sortedCandidates latitude longitude products).take 3).mapIdx mkRecommendation

/-- The deterministic ranking tail of `findProducts` (lines 180-228 of the
source): enrich, stable-sort by the comparator, take the first 3, decorate,
and build the templated summary. -/
noncomputable def deterministicRanking (query : String) (latitude longitude : ℝ)
    (products : List ProductRow) : SearchResult :=
  let ranked := rankedRecommendations latitude longitude products
  { summary := "Top " ++ toString ranked.length ++ " results for \"" ++ query ++
      "\" near you based on distance, price, and rating."
    recommendations := ranked }

/-- `text.replace(/```json/g, "").replace(/```/g, "").trim()`. -/
def stripFences (text : String) : String :=
  ((text.replace "```json" "").replace "```" "").trim

/-- The collaborator calls `findProducts` can make, logged in order. -/
inductive Call where
  | shopLookup
  | productQuery
  | aiCall
deriving DecidableEq

/-- `findProducts(query, latitude, longitude)`.

Collaborator behaviour is passed in as data: the `nearby_shops` RPC reply,
the products query reply (a thrown storage error is `Except.error`; a
`null`/empty `data` is `none`/`[]`), the `USE_LOCAL_RANKING` flag, the
Gemini reply (`Except.error` models a thrown provider error), and
`JSON.parse` on the fence-stripped reply (`parseJson s = none` models a
parse exception; the parsed value is taken at the result shape).
Returns the outcome together with the log of collaborator calls made. -/
noncomputable def findProducts (query : String) (latitude longitude : ℝ)
    (shopsResult : Except Unit (Option (List ShopRow)))
    (productsResult : Except Unit (Option (List ProductRow)))
    (useLocalRanking : Bool)
    (aiResult : Except Unit String)
    (parseJson : String → Option SearchResult) :
    Except Unit SearchResult × List Call :=
  match shopsResult with
  | Except.error e => (Except.error e, [Call.shopLookup])
  | Except.ok shopsOpt =>
    let shops := shopsOpt.getD []
    if shops.isEmpty then
      (Except.ok { summary := "No shops found near your location.",
                   recommendations := [] }, [Call.shopLookup])
    else
      match productsResult with
      | Except.error e => (Except.error e, [Call.shopLookup, Call.productQuery])
      | Except.ok productsOpt =>
        let products := productsOpt.getD []
        if products.isEmpty then
          let q := if query ≠ "" ∧ 0 < query.trim.length then
              "matching \"" ++ query ++ "\" " else ""
          (Except.ok { summary := "No products " ++ q ++ "found in nearby shops.",
                       recommendations := [] },
           [Call.shopLookup, Call.productQuery])
        else
          if useLocalRanking = false then
            match aiResult with
            | Except.ok text =>
              match parseJson (stripFences text) with
              | some parsed =>
                (Except.ok parsed, [Call.shopLookup, Call.productQuery, Call.aiCall])
              | none =>
                (Except.ok (deterministicRanking query latitude longitude products),
                 [Call.shopLookup, Call.productQuery, Call.aiCall])
            | Except.error _ =>
              (Except.ok (deterministicRanking query latitude longitude products),
               [Call.shopLookup, Call.productQuery, Call.aiCall])
          else
            (Except.ok (deterministicRanking query latitude longitude products),
             [Call.shopLookup, Call.productQuery])

/-! ### Market trend endpoint (`GET /ai/market-trend/:productName`) -/

/-- The internal trend classification (identical in the main body and in the
rule-based fallback of the handler): given the fetched `market_price` rows
newest first, fewer than two observations leave `"Insufficient Data"`,
otherwise the newest price is compared to the mean of the older ones with a
fixed 5% band. -/
def internalTrendOf (prices : List ℚ) : String :=
  match prices with
  | [] => "Insufficient Data"
  | latestPrice :: olderPrices =>
    match olderPrices with
    | [] => "Insufficient Data"
    | _ :: _ =>
      let avgOldPrice := olderPrices.sum / (olderPrices.length : ℚ)
      if latestPrice > avgOldPrice * 1.05 then "Rising"
      else if latestPrice < avgOldPrice * 0.95 then "Falling"
      else "Stable"

/-- `internalPrice`: the most recent price, `null` when there are no rows. -/
def internalPriceOf (prices : List ℚ) : Option ℚ := prices.head?

/-- JS truthiness of a nullable number (`null`, `0` and `NaN` are falsy). -/
def numTruthy (v : Option ℚ) : Bool :=
  match v with
  | none => false
  | some x => x ≠ 0

/-- The rule-based fallback of the market-trend handler: default `HOLD`,
overridden to `BUY` when the trend is `"Rising"`, the internal price is
truthy and below the external price, else to `SELL` when the trend is
`"Falling"`, the internal price is truthy and above the external price.
Returns `(prediction, reason)`. -/
def ruleBasedFallback (internalTrend : String) (internalPrice : Option ℚ)
    (externalPrice : ℚ) : String × String :=
  if internalTrend = "Rising" ∧ numTruthy internalPrice ∧
      internalPrice.getD 0 < externalPrice then
    ("BUY", "Internal price trending up and below external market.")
  else if internalTrend = "Falling" ∧ numTruthy internalPrice ∧
      externalPrice < internalPrice.getD 0 then
    ("SELL", "Internal price trending down and above external market.")
  else
    ("HOLD", "Prices appear stable based on recent internal data.")

/-! ### Image search endpoint (`POST /ai/search-by-image`) -/

/-- One MobileNet classification (`{className, probability}`). -/
structure Pred where
  className : String
  probability : ℚ

/-- One COCO-SSD detection; `score` is `none` when the field is not a
number (the filter `typeof d.score === 'number' && d.score < 0.3` then
does not discard the detection). -/
structure Det where
  cls : String
  score : Option ℚ

/-- Is `pat` a prefix of `l`? -/
def listStarts : List Char → List Char → Bool
  | [], _ => true
  | _ :: _, [] => false
  | a :: as, b :: bs => a == b && listStarts as bs

/-- Does `l` contain `pat` as a contiguous run?  (`String.prototype.includes`.) -/
def listHasSub (pat : List Char) : List Char → Bool
  | [] => listStarts pat []
  | c :: t => listStarts pat (c :: t) || listHasSub pat t

/-- `s.includes(pat)` on strings. -/
def jsIncludes (s pat : String) : Bool := listHasSub pat.toList s.toList

/-- `mapLabelToQuery` from the image handler: the fixed lexicon mapping a
classifier label to a food category, first matching rule wins. -/
def mapLabelToQuery (text : String) : Option String :=
  let t := text.toLower
  if jsIncludes t "burger" || jsIncludes t "cheeseburger" then some "Burger"
  else if jsIncludes t "pizza" then some "Pizza"
  else if jsIncludes t "samosa" then some "Samosa"
  else if jsIncludes t "cake" || jsIncludes t "cupcake" || jsIncludes t "pastry" then some "Cake"
  else if jsIncludes t "sandwich" || jsIncludes t "submarine" then some "Sandwich"
  else if jsIncludes t "donut" || jsIncludes t "doughnut" then some "Donut"
  else if jsIncludes t "noodle" || jsIncludes t "pasta" || jsIncludes t "spaghetti" then some "Pasta"
  else if jsIncludes t "biryani" || jsIncludes t "rice" then some "Biryani"
  else if jsIncludes t "dosa" then some "Dosa"
  else if jsIncludes t "idli" then some "Idli"
  else if jsIncludes t "vada" || jsIncludes t "vadai" then some "Vada"
  else if jsIncludes t "roll" || jsIncludes t "wrap" then some "Roll"
  else if jsIncludes t "muffin" || jsIncludes t "cookie" || jsIncludes t "biscuit" then some "Cake"
  else if jsIncludes t "ice cream" || jsIncludes t "ice-cream" then some "Ice Cream"
  else if jsIncludes t "coffee" then some "Coffee"
  else if jsIncludes t "tea" then some "Tea"
  else if jsIncludes t "juice" then some "Juice"
  else none

/-- `cocoToQuery` from the image handler: the second lexicon, mapping a
detected object class to a food category. -/
def cocoToQuery (name : String) : Option String :=
  let t := name.toLower
  if jsIncludes t "cake" then some "Cake"
  else if jsIncludes t "pizza" then some "Pizza"
  else if jsIncludes t "donut" || jsIncludes t "doughnut" then some "Donut"
  else if jsIncludes t "sandwich" then some "Sandwich"
  else if jsIncludes t "hot dog" then some "Burger"
  else if jsIncludes t "banana" || jsIncludes t "apple" || jsIncludes t "orange" then some "Fruit"
  else none

/-- The `for (const p of predictions)` loop of tier 2: first mapped label. -/
def firstMappedLabel : List Pred → Option String
  | [] => none
  | p :: rest =>
    match mapLabelToQuery p.className with
    | some guess => some guess
    | none => firstMappedLabel rest

/-- The `for (const d of detections)` loop of tier 3: detections whose
`score` is a number below `0.3` are skipped, the first mapped class wins. -/
def firstMappedDetection : List Det → Option String
  | [] => none
  | d :: rest =>
    if (match d.score with
        | some s => decide (s < 3 / 10)
        | none => false) then
      firstMappedDetection rest
    else
      match cocoToQuery d.cls with
      | some guess => some guess
      | none => firstMappedDetection rest

/-- `predictions[0].className.split(',')[0].trim()` (tier 4). -/
def rawLabelTerm (className : String) : String :=
  ((className.splitOn ",").headD "").trim

/-- Tiers 2-4 of the image handler (the single `try` block holding the
MobileNet classification, the COCO-SSD detection and the raw-label
fallback).  `classify`/`detect` are the on-device model outcomes
(`Except.error` = the model call threw there, caught by the block's
`catch`).  Returns the resolved term (possibly `null`) and the
`classifierPredictions` diagnostics that survive. -/
def localTiers (classify : Except Unit (List Pred))
    (detect : Except Unit (List Det)) : Option String × List Pred :=
  match classify with
  | Except.error _ => (none, [])
  | Except.ok predictions =>
    let top := match predictions with
      | [] => ""
      | p :: _ => p.className
    let fromTop := mapLabelToQuery top
    let fromLoop := match fromTop with
      | some g => some g
      | none => firstMappedLabel predictions
    match fromLoop with
    | some g => (some g, predictions)
    | none =>
      match detect with
      | Except.error _ => (none, predictions)
      | Except.ok detections =>
        match firstMappedDetection detections with
        | some g => (some g, predictions)
        | none =>
          match predictions with
          | [] => (none, predictions)
          | p :: _ => (some (rawLabelTerm p.className), predictions)

/-- The full 4-tier term resolution of the image handler.  Tier 1 (Gemini
vision) is skipped when the API key is missing; a thrown provider error is
caught; an all-whitespace reply is falsy after `trim` and also falls
through to the local tiers. -/
def resolveImageTerm (geminiKeyPresent : Bool)
    (vision : Except Unit String)
    (classify : Except Unit (List Pred))
    (detect : Except Unit (List Det)) : Option String × List Pred :=
  let identifiedFood : Option String :=
    if geminiKeyPresent then
      match vision with
      | Except.error _ => none
      | Except.ok s => if s.trim = "" then none else some (s.trim)
    else none
  match identifiedFood with
  | some t => (some t, [])
  | none => localTiers classify detect

/-- The response of the image handler: the normal shape with detection
context, the plain shape produced by the catch-block retry, or the 500. -/
inductive ImageResponse where
  | withDetection (detected_label : Option String) (predictions : List Pred)
      (result : SearchResult)
  | plain (result : SearchResult)
  | serverError

/-- The image handler after validation: resolve the term, search with
`identifiedFood || ''`, reply with detection context; on an unexpected
error retry `findProducts('Burger', ...)` and reply with the bare search
result, else 500.  `fp q` is the outcome of `findProducts` for query `q`
(all its other inputs fixed by the request). -/
def searchByImageFlow (geminiKeyPresent : Bool)
    (vision : Except Unit String)
    (classify : Except Unit (List Pred))
    (detect : Except Unit (List Det))
    (fp : String → Except Unit SearchResult) : ImageResponse :=
  let resolved := resolveImageTerm geminiKeyPresent vision classify detect
  let identifiedFood := resolved.1
  let searchTerm := identifiedFood.getD ""
  match fp searchTerm with
  | Except.ok searchResults =>
    ImageResponse.withDetection
      (match identifiedFood with
       | some s => if s = "" then none else some s
       | none => none)
      resolved.2 searchResults
  | Except.error _ =>
    match fp "Burger" with
    | Except.ok searchResults => ImageResponse.plain searchResults
    | Except.error _ => ImageResponse.serverError

/-! ### Request validation of the two search endpoints -/

/-- A request body field as the validation code sees it: absent, a JSON
string, or a JSON number. -/
inductive JsField where
  | missing
  | str (s : String)
  | num (q : ℚ)

/-- JS truthiness of a body field: absent fields, the empty string and the
number `0` are all falsy. -/
def fieldTruthy : JsField → Bool
  | JsField.missing => false
  | JsField.str s => s ≠ ""
  | JsField.num q => q ≠ 0

/-- Outcome of a handler around `findProducts`. -/
inductive HandlerOut where
  | badRequest (error : String)
  | ok (result : SearchResult)
  | serverError

/-- The `POST /ai/search` handler: `if (!query || !latitude || !longitude)`
rejects with 400 before any collaborator call; otherwise `findProducts`
runs (its outcome and call log are the `search` input). -/
def aiSearchHandler (query latitude longitude : JsField)
    (search : Except Unit SearchResult × List Call) : HandlerOut × List Call :=
  if !fieldTruthy query || !fieldTruthy latitude || !fieldTruthy longitude then
    (HandlerOut.badRequest "Query, latitude, and longitude are required.", [])
  else
    match search with
    | (Except.ok results, calls) => (HandlerOut.ok results, calls)
    | (Except.error _, calls) => (HandlerOut.serverError, calls)

/-- The validation prelude of `POST /ai/search-by-image`: missing file,
then `if (!latitude || !longitude)`, each rejected with 400 before any
collaborator call.  Returns the 400 message, if any. -/
def imageSearchValidation (imageFilePresent : Bool)
    (latitude longitude : JsField) : Option String :=
  if !imageFilePresent then
    some "Image file (as \"foodImage\") is required."
  else if !fieldTruthy latitude || !fieldTruthy longitude then
    some "latitude and longitude are required."
  else none

/-! ### Order-theoretic analysis of the deterministic comparator -/

/-- The comparator's verdict, as a key into a genuine linear order: the
first component separates unrankable (`Infinity`) distances — for which the
comparator's `NaN` result makes *everything* compare equal, so the rest of
the key is zeroed — then distance, then an `Infinity`-price flag (likewise
collapsing the rating), then price, then negated rating. -/
noncomputable def rankKey (a : Enriched) : ℝ ×ₗ (ℝ ×ₗ (ℝ ×ₗ (ℝ ×ₗ ℝ))) :=
  match a.distance_km with
  | JsNum.inf => toLex (1, toLex (0, toLex (0, toLex (0, 0))))
  | JsNum.fin d =>
    match a.price with
    | JsNum.inf => toLex (0, toLex (d, toLex (1, toLex (0, 0))))
    | JsNum.fin p => toLex (0, toLex (d, toLex (0, toLex (p, -a.rating))))

/-- The ordering contract the deterministic sort actually establishes
between a pair placed in this relative order: strictly nearer first; ties
of *finite* distance broken by price (lower first), ties of finite price
broken by rating (higher first); but a pair of unrankable (`Infinity`)
distances, or of `Infinity` prices at equal finite distance, is simply
"equal" to the comparator (its subtraction is `NaN`), so no further
tie-break applies there. -/
def jsLtN : JsNum → JsNum → Prop
  | JsNum.fin x, JsNum.fin y => x < y
  | JsNum.fin _, JsNum.inf => True
  | JsNum.inf, _ => False

def rankLe (a b : Enriched) : Prop :=
  (a.distance_km = JsNum.inf ∧ b.distance_km = JsNum.inf) ∨
  jsLtN a.distance_km b.distance_km ∨
  (a.distance_km = b.distance_km ∧ a.distance_km ≠ JsNum.inf ∧
    ((a.price = JsNum.inf ∧ b.price = JsNum.inf) ∨
     jsLtN a.price b.price ∨
     (a.price = b.price ∧ a.price ≠ JsNum.inf ∧ b.rating ≤ a.rating)))

lemma candLe_iff_key (a b : Enriched) : candLe a b ↔ rankKey a ≤ rankKey b := by
  unfold candLe cmpCand rankKey
  rcases hda : a.distance_km with da | _ <;> rcases hdb : b.distance_km with db | _ <;>
    rcases hpa : a.price with pa | _ <;> rcases hpb : b.price with pb | _ <;>
      simp only [jsSub]
  · -- fin distances, fin prices
    rcases lt_trichotomy da db with h | h | h
    · simp [if_pos h, Prod.Lex.le_iff, h]
    · subst h
      simp only [lt_irrefl, if_neg, if_false]
      rcases lt_trichotomy pa pb with h' | h' | h'
      · simp [if_pos h', Prod.Lex.le_iff, h']
      · subst h'
        simp only [lt_irrefl, if_neg, if_false]
        unfold cmpReal
        rcases lt_trichotomy b.rating a.rating with h'' | h'' | h''
        · simp [if_pos h'', Prod.Lex.le_iff, h''.le]
        · simp [h'', lt_irrefl, Prod.Lex.le_iff, le_refl]
        · simp [if_neg (lt_asymm h''), if_pos h'', Prod.Lex.le_iff, not_le.mpr h'']
      · simp [if_neg (lt_asymm h'), if_pos h', Prod.Lex.le_iff, h'.ne',
          not_lt.mpr h'.le, not_lt_of_lt h']
    · simp [if_neg (lt_asymm h), if_pos h, Prod.Lex.le_iff, h.ne',
        not_lt.mpr h.le, not_lt_of_lt h]
  · -- fin distances, a price fin, b price inf
    rcases lt_trichotomy da db with h | h | h
    · simp [if_pos h, Prod.Lex.le_iff, h]
    · subst h
      simp [lt_irrefl, Prod.Lex.le_iff]
    · simp [if_neg (lt_asymm h), if_pos h, Prod.Lex.le_iff, h.ne',
        not_lt.mpr h.le, not_lt_of_lt h]
  · -- fin distances, a price inf, b price fin
    rcases lt_trichotomy da db with h | h | h
    · simp [if_pos h, Prod.Lex.le_iff, h]
    · subst h
      simp [lt_irrefl, Prod.Lex.le_iff]
    · simp [if_neg (lt_asymm h), if_pos h, Prod.Lex.le_iff, h.ne',
        not_lt.mpr h.le, not_lt_of_lt h]
  · -- fin distances, both prices inf
    rcases lt_trichotomy da db with h | h | h
    · simp [if_pos h, Prod.Lex.le_iff, h]
    · subst h
      simp [lt_irrefl, Prod.Lex.le_iff]
    · simp [if_neg (lt_asymm h), if_pos h, Prod.Lex.le_iff, h.ne',
        not_lt.mpr h.le, not_lt_of_lt h]
  · -- a distance fin, b distance inf (four price cases)
    simp [Prod.Lex.le_iff]
  · simp [Prod.Lex.le_iff]
  · simp [Prod.Lex.le_iff]
  · simp [Prod.Lex.le_iff]
  · -- a distance inf, b distance fin (four price cases)
    simp [Prod.Lex.le_iff, Prod.Lex.lt_iff]
  · simp [Prod.Lex.le_iff, Prod.Lex.lt_iff]
  · simp [Prod.Lex.le_iff, Prod.Lex.lt_iff]
  · simp [Prod.Lex.le_iff, Prod.Lex.lt_iff]
  · -- both distances inf (four price cases)
    exact iff_of_true (by decide) le_rfl
  · exact iff_of_true (by decide) le_rfl
  · exact iff_of_true (by decide) le_rfl
  · exact iff_of_true (by decide) le_rfl

instance : IsTotal Enriched candLe :=
  ⟨fun a b => by
    rw [candLe_iff_key, candLe_iff_key]
    exact le_total (rankKey a) (rankKey b)⟩

instance : IsTrans Enriched candLe :=
  ⟨fun a b c hab hbc =>
    (candLe_iff_key a c).2
      (le_trans ((candLe_iff_key a b).1 hab) ((candLe_iff_key b c).1 hbc))⟩

lemma candLe_imp_rankLe (a b : Enriched) : candLe a b → rankLe a b := by
  unfold candLe cmpCand rankLe
  rcases hda : a.distance_km with da | _ <;> rcases hdb : b.distance_km with db | _ <;>
    rcases hpa : a.price with pa | _ <;> rcases hpb : b.price with pb | _ <;>
      simp only [jsSub, jsLtN]
  · rcases lt_trichotomy da db with h | h | h
    · simp [h]
    · subst h
      simp only [lt_irrefl, if_neg, if_false]
      rcases lt_trichotomy pa pb with h' | h' | h'
      · simp [h']
      · subst h'
        simp only [lt_irrefl, if_neg, if_false]
        unfold cmpReal
        rcases lt_trichotomy b.rating a.rating with h'' | h'' | h''
        · simp [if_pos h'', h''.le, lt_irrefl]
        · simp [h'', lt_irrefl, le_refl]
        · simp [if_neg (lt_asymm h''), if_pos h'', not_le.mpr h'', lt_irrefl,
            not_lt_of_lt h'']
      · simp [if_neg (lt_asymm h'), if_pos h', h'.ne', not_lt_of_lt h', lt_irrefl]
    · simp [if_neg (lt_asymm h), if_pos h, h.ne', not_lt_of_lt h, lt_irrefl]
  · rcases lt_trichotomy da db with h | h | h
    · simp [h]
    · subst h
      simp [lt_irrefl]
    · simp [if_neg (lt_asymm h), if_pos h, h.ne', not_lt_of_lt h, lt_irrefl]
  · rcases lt_trichotomy da db with h | h | h
    · simp [h]
    · subst h
      simp [lt_irrefl]
    · simp [if_neg (lt_asymm h), if_pos h, h.ne', not_lt_of_lt h, lt_irrefl]
  · rcases lt_trichotomy da db with h | h | h
    · simp [h]
    · subst h
      simp [lt_irrefl]
    · simp [if_neg (lt_asymm h), if_pos h, h.ne', not_lt_of_lt h, lt_irrefl]
  · -- a distance fin, b distance inf (four price cases)
    simp
  · simp
  · simp
  · simp
  · -- a distance inf, b distance fin (four price cases)
    exact fun h => absurd rfl h
  · exact fun h => absurd rfl h
  · exact fun h => absurd rfl h
  · exact fun h => absurd rfl h
  · -- both distances inf (four price cases)
    exact fun _ => Or.inl ⟨trivial, trivial⟩
  · exact fun _ => Or.inl ⟨trivial, trivial⟩
  · exact fun _ => Or.inl ⟨trivial, trivial⟩
  · exact fun _ => Or.inl ⟨trivial, trivial⟩

/-! ### Helper lemmas for the rule-based trend fallback -/

lemma buyCond_iff (trend : String) (ip : Option ℚ) (ep : ℚ) :
    (trend = "Rising" ∧ numTruthy ip ∧ ip.getD 0 < ep) ↔
      (trend = "Rising" ∧ ∃ p, ip = some p ∧ p ≠ 0 ∧ p < ep) := by
  cases ip <;> simp [numTruthy]

lemma sellCond_iff (trend : String) (ip : Option ℚ) (ep : ℚ) :
    (trend = "Falling" ∧ numTruthy ip ∧ ep < ip.getD 0) ↔
      (trend = "Falling" ∧ ∃ p, ip = some p ∧ p ≠ 0 ∧ ep < p) := by
  cases ip <;> simp [numTruthy]

lemma prediction_eq (trend : String) (ip : Option ℚ) (ep : ℚ) :
    (ruleBasedFallback trend ip ep).1 =
      if trend = "Rising" ∧ numTruthy ip ∧ ip.getD 0 < ep then "BUY"
      else if trend = "Falling" ∧ numTruthy ip ∧ ep < ip.getD 0 then "SELL"
      else "HOLD" := by
  unfold ruleBasedFallback
  split_ifs <;> rfl

/-! ### Claim theorems -/

/-- C4: with fewer than two observations the trend is `"Insufficient Data"`
regardless of values; otherwise (for a valid price history, prices ≥ 0) the
trend is `"Rising"` exactly when the newest price exceeds 1.05 times the
mean of the older ones, `"Falling"` exactly when it is below 0.95 times
that mean, and `"Stable"` otherwise. -/
theorem trend_classification (prices : List ℚ) :
    (prices.length < 2 → internalTrendOf prices = "Insufficient Data") ∧
    (∀ latestPrice olderPrices, prices = latestPrice :: olderPrices →
      (∀ p ∈ prices, 0 ≤ p) → olderPrices ≠ [] →
      ((internalTrendOf prices = "Rising" ↔
          latestPrice > 1.05 * (olderPrices.sum / (olderPrices.length : ℚ))) ∧
       (internalTrendOf prices = "Falling" ↔
          latestPrice < 0.95 * (olderPrices.sum / (olderPrices.length : ℚ))) ∧
       (internalTrendOf prices = "Stable" ↔
          ¬(latestPrice > 1.05 * (olderPrices.sum / (olderPrices.length : ℚ))) ∧
          ¬(latestPrice < 0.95 * (olderPrices.sum / (olderPrices.length : ℚ)))))) := by
  constructor
  · intro h
    match prices with
    | [] => rfl
    | [_] => rfl
    | _ :: _ :: _ => simp at h; omega
  · rintro latest older rfl hnn hne
    rcases older with _ | ⟨b, t⟩
    · exact absurd rfl hne
    · have hmean : (0:ℚ) ≤ (b :: t).sum / ((b :: t).length : ℚ) := by
        apply div_nonneg
        · exact List.sum_nonneg (fun x hx => hnn x (List.mem_cons_of_mem _ hx))
        · positivity
      set m := (b :: t).sum / (((b :: t).length : ℕ) : ℚ) with hm
      show (internalTrendOf (latest :: b :: t) = "Rising" ↔ latest > 1.05 * m) ∧ _ ∧ _
      have htrend : internalTrendOf (latest :: b :: t) =
          if latest > m * 1.05 then "Rising"
          else if latest < m * 0.95 then "Falling"
          else "Stable" := rfl
      rw [htrend]
      split_ifs with h1 h2
      · exact ⟨iff_of_true rfl (by linarith),
          iff_of_false (by decide) (by intro h'; linarith),
          iff_of_false (by decide) (fun hc => hc.1 (by linarith))⟩
      · exact ⟨iff_of_false (by decide) (fun h' => h1 (by linarith)),
          iff_of_true rfl (by linarith),
          iff_of_false (by decide) (fun hc => hc.2 (by linarith))⟩
      · exact ⟨iff_of_false (by decide) (fun h' => h1 (by linarith)),
          iff_of_false (by decide) (fun h' => h2 (by linarith)),
          iff_of_true rfl ⟨fun h' => h1 (by linarith), fun h' => h2 (by linarith)⟩⟩

/-- C4 witness: the spec's concrete history `[110, 100, 100]` (newest
first) classifies as `"Rising"`. -/
theorem trend_classification_witness :
    internalTrendOf [110, 100, 100] = "Rising" := by
  have h := (trend_classification [110, 100, 100]).2 110 [100, 100] rfl
    (by intro p hp; fin_cases hp <;> norm_num) (by decide)
  exact h.1.mpr (by norm_num)

/-- C5 counterexample: the claim says the fallback returns `BUY` for every
combination with trend `"Rising"` and internal price below external price,
but with internal price `0` (falsy in JS) the code returns `HOLD`. -/
theorem rule_fallback_counterexample :
    (ruleBasedFallback "Rising" (some 0) 100).1 = "HOLD" ∧
    (ruleBasedFallback "Rising" (some 0) 100).1 ≠ "BUY" ∧ (0:ℚ) < 100 := by
  decide

/-- C5 amended: `HOLD` is the base case; `BUY` requires trend `"Rising"`
and a present, *nonzero* (truthy) internal price below the external price;
`SELL` requires trend `"Falling"` and a present, nonzero internal price
above the external price; the `BUY` check precedes the `SELL` check.  The
spec's three concrete examples hold. -/
theorem rule_fallback_amended (trend : String) (internalPrice : Option ℚ)
    (externalPrice : ℚ) :
    ((ruleBasedFallback trend internalPrice externalPrice).1 = "BUY" ↔
      trend = "Rising" ∧ ∃ p, internalPrice = some p ∧ p ≠ 0 ∧ p < externalPrice) ∧
    ((ruleBasedFallback trend internalPrice externalPrice).1 = "SELL" ↔
      ¬(trend = "Rising" ∧ ∃ p, internalPrice = some p ∧ p ≠ 0 ∧ p < externalPrice) ∧
      (trend = "Falling" ∧ ∃ p, internalPrice = some p ∧ p ≠ 0 ∧ externalPrice < p)) ∧
    ((ruleBasedFallback trend internalPrice externalPrice).1 = "HOLD" ↔
      ¬(trend = "Rising" ∧ ∃ p, internalPrice = some p ∧ p ≠ 0 ∧ p < externalPrice) ∧
      ¬(trend = "Falling" ∧ ∃ p, internalPrice = some p ∧ p ≠ 0 ∧ externalPrice < p)) ∧
    (ruleBasedFallback "Rising" (some 90) 100).1 = "BUY" ∧
    (ruleBasedFallback "Falling" (some 110) 100).1 = "SELL" ∧
    (∀ (ip : Option ℚ) (ep : ℚ), (ruleBasedFallback "Stable" ip ep).1 = "HOLD") := by
  have hchar := prediction_eq trend internalPrice externalPrice
  by_cases h1 : trend = "Rising" ∧ numTruthy internalPrice ∧
      internalPrice.getD 0 < externalPrice
  · rw [if_pos h1] at hchar
    refine ⟨?_, ?_, ?_, by decide, by decide, fun ip ep => rfl⟩
    · rw [hchar, ← buyCond_iff]
      exact iff_of_true rfl h1
    · rw [hchar, ← buyCond_iff, ← sellCond_iff]
      exact iff_of_false (by decide) (fun hc => hc.1 h1)
    · rw [hchar, ← buyCond_iff, ← sellCond_iff]
      exact iff_of_false (by decide) (fun hc => hc.1 h1)
  · rw [if_neg h1] at hchar
    by_cases h2 : trend = "Falling" ∧ numTruthy internalPrice ∧
        externalPrice < internalPrice.getD 0
    · rw [if_pos h2] at hchar
      refine ⟨?_, ?_, ?_, by decide, by decide, fun ip ep => rfl⟩
      · rw [hchar, ← buyCond_iff]
        exact iff_of_false (by decide) h1
      · rw [hchar, ← buyCond_iff, ← sellCond_iff]
        exact iff_of_true rfl ⟨h1, h2⟩
      · rw [hchar, ← buyCond_iff, ← sellCond_iff]
        exact iff_of_false (by decide) (fun hc => hc.2 h2)
    · rw [if_neg h2] at hchar
      refine ⟨?_, ?_, ?_, by decide, by decide, fun ip ep => rfl⟩
      · rw [hchar, ← buyCond_iff]
        exact iff_of_false (by decide) h1
      · rw [hchar, ← buyCond_iff, ← sellCond_iff]
        exact iff_of_false (by decide) (fun hc => h2 hc.2)
      · rw [hchar, ← buyCond_iff, ← sellCond_iff]
        exact iff_of_true rfl ⟨h1, h2⟩

/-- C9: an empty (or `null`) `nearby_shops` reply makes `findProducts`
return exactly the fixed no-shops `SearchResult` with no collaborator call
beyond the shop lookup. -/
theorem no_shops_early_return (query : String) (latitude longitude : ℝ)
    (shopsOpt : Option (List ShopRow))
    (productsResult : Except Unit (Option (List ProductRow)))
    (useLocalRanking : Bool) (aiResult : Except Unit String)
    (parseJson : String → Option SearchResult)
    (h : shopsOpt = none ∨ shopsOpt = some []) :
    findProducts query latitude longitude (Except.ok shopsOpt) productsResult
        useLocalRanking aiResult parseJson =
      (Except.ok { summary := "No shops found near your location.",
                   recommendations := [] }, [Call.shopLookup]) := by
  rcases h with h | h <;> subst h <;> rfl

/-- C9 witness at a concrete request. -/
theorem no_shops_early_return_witness :
    findProducts "Pizza" 0 0 (Except.ok none) (Except.ok none) false
        (Except.error ()) (fun _ => none) =
      (Except.ok { summary := "No shops found near your location.",
                   recommendations := [] }, [Call.shopLookup]) :=
  no_shops_early_return "Pizza" 0 0 none (Except.ok none) false
    (Except.error ()) (fun _ => none) (Or.inl rfl)

/-- C3: whenever the AI path fails (thrown provider error, or a reply whose
fence-stripped text does not parse), `findProducts` returns exactly the
result of the deterministic path for the same inputs, and the outcome is
never an error when the storage collaborators succeeded. -/
theorem ai_failure_falls_back (query : String) (latitude longitude : ℝ)
    (shopsResult : Except Unit (Option (List ShopRow)))
    (productsResult : Except Unit (Option (List ProductRow)))
    (aiResult : Except Unit String) (parseJson : String → Option SearchResult)
    (hfail : ∀ t, aiResult = Except.ok t → parseJson (stripFences t) = none) :
    (findProducts query latitude longitude shopsResult productsResult false
        aiResult parseJson).1 =
      (findProducts query latitude longitude shopsResult productsResult true
        aiResult parseJson).1 ∧
    (∀ shopsOpt productsOpt, shopsResult = Except.ok shopsOpt →
      productsResult = Except.ok productsOpt →
      ∃ r, (findProducts query latitude longitude shopsResult productsResult false
          aiResult parseJson).1 = Except.ok r) := by
  constructor
  · rcases shopsResult with e | shopsOpt
    · rfl
    rcases productsResult with e | productsOpt
    · simp [findProducts,
        apply_ite (Prod.fst (α := Except Unit SearchResult) (β := List Call))]
    rcases aiResult with e | t
    · simp [findProducts,
        apply_ite (Prod.fst (α := Except Unit SearchResult) (β := List Call))]
    · have hp := hfail t rfl
      simp [findProducts, hp,
        apply_ite (Prod.fst (α := Except Unit SearchResult) (β := List Call))]
  · rintro shopsOpt productsOpt rfl rfl
    simp only [findProducts]
    by_cases hs : (shopsOpt.getD []).isEmpty = true
    · rw [if_pos hs]
      exact ⟨_, rfl⟩
    · rw [if_neg hs]
      by_cases hp : (productsOpt.getD []).isEmpty = true
      · rw [if_pos hp]
        exact ⟨_, rfl⟩
      · rw [if_neg hp]
        cases aiResult with
        | error e => exact ⟨_, rfl⟩
        | ok t =>
          exact ⟨deterministicRanking query latitude longitude (productsOpt.getD []),
            by simp [hfail t rfl]⟩

/-- C3 witness at a concrete request: provider error, nonempty shops and
products. -/
theorem ai_failure_falls_back_witness :
    (findProducts "q" 0 0 (Except.ok (some [{ id := 1 }]))
        (Except.ok (some [{ name := "Burger", price := some 10, rating := some 4,
                            shop_id := 1, shops := none }]))
        false (Except.error ()) (fun _ => none)).1 =
      (findProducts "q" 0 0 (Except.ok (some [{ id := 1 }]))
        (Except.ok (some [{ name := "Burger", price := some 10, rating := some 4,
                            shop_id := 1, shops := none }]))
        true (Except.error ()) (fun _ => none)).1 :=
  (ai_failure_falls_back "q" 0 0 (Except.ok (some [{ id := 1 }]))
    (Except.ok (some [{ name := "Burger", price := some 10, rating := some 4,
                        shop_id := 1, shops := none }]))
    (Except.error ()) (fun _ => none) (fun _ h => nomatch h)).1

/-- C7: a vision-tier failure (thrown provider error, or missing API key)
makes the image-term resolution proceed through the local tiers and still
produce a (possibly null) term — it is never fatal — and the
object-detection tier skips any detection whose numeric confidence is
below 0.3. -/
theorem vision_tier_failure_not_fatal :
    (∀ (e : Unit) (classify : Except Unit (List Pred))
        (detect : Except Unit (List Det)),
      resolveImageTerm true (Except.error e) classify detect =
        localTiers classify detect) ∧
    (∀ (vision : Except Unit String) (classify : Except Unit (List Pred))
        (detect : Except Unit (List Det)),
      resolveImageTerm false vision classify detect =
        localTiers classify detect) ∧
    (∀ (d : Det) (ds : List Det) (s : ℚ), d.score = some s → s < 3 / 10 →
      firstMappedDetection (d :: ds) = firstMappedDetection ds) := by
  refine ⟨fun e c dt => rfl, fun v c dt => rfl, fun d ds s hs hlt => ?_⟩
  simp [firstMappedDetection, hs, hlt]

/-- C7 witness: concrete provider error, concrete low-confidence detection. -/
theorem vision_tier_failure_not_fatal_witness :
    resolveImageTerm true (Except.error ()) (Except.error ()) (Except.error ()) =
      localTiers (Except.error ()) (Except.error ()) ∧
    firstMappedDetection [{ cls := "pizza", score := some (1/10) }] = none := by
  refine ⟨vision_tier_failure_not_fatal.1 () _ _, ?_⟩
  exact (vision_tier_failure_not_fatal.2.2 { cls := "pizza", score := some (1/10) }
    [] (1/10) rfl (by norm_num)).trans rfl

/-- C8 counterexample: when every tier fails to produce a term, the caller
searches with the *empty* query (no name filter), not with the fixed
default term `"Burger"` claimed by the spec (the probe collaborator
records the query it was called with in the summary). -/
theorem null_term_counterexample :
    resolveImageTerm false (Except.error ()) (Except.error ()) (Except.error ()) =
      (none, []) ∧
    searchByImageFlow false (Except.error ()) (Except.error ()) (Except.error ())
        (fun q => Except.ok { summary := String.append "searched for:" q,
                              recommendations := [] }) =
      ImageResponse.withDetection none []
        { summary := "searched for:", recommendations := [] } ∧
    ("searched for:" : String) ≠ "searched for:Burger" := by
  exact ⟨rfl, rfl, by decide⟩

/-- C8 amended: when every tier fails, the resolver returns a null term and
the caller substitutes the empty query term (searching nearby shops with no
name filter) without treating the null as an error; the fixed term
`"Burger"` is used only as the retry query of the handler's
unexpected-error catch path. -/
theorem null_term_amended
    (geminiKeyPresent : Bool) (vision : Except Unit String)
    (classify : Except Unit (List Pred)) (detect : Except Unit (List Det))
    (fp : String → Except Unit SearchResult) (preds : List Pred)
    (sr sr' : SearchResult)
    (hterm : resolveImageTerm geminiKeyPresent vision classify detect =
      (none, preds)) :
    (fp "" = Except.ok sr →
      searchByImageFlow geminiKeyPresent vision classify detect fp =
        ImageResponse.withDetection none preds sr) ∧
    (fp "" = Except.error () → fp "Burger" = Except.ok sr' →
      searchByImageFlow geminiKeyPresent vision classify detect fp =
        ImageResponse.plain sr') := by
  constructor
  · intro hfp
    simp [searchByImageFlow, hterm, hfp]
  · intro hfp hb
    simp [searchByImageFlow, hterm, hfp, hb]

/-- C8 amended witness at a concrete all-tiers-failed request. -/
theorem null_term_amended_witness :
    searchByImageFlow false (Except.error ()) (Except.error ()) (Except.error ())
        (fun _ => Except.ok { summary := "s", recommendations := [] }) =
      ImageResponse.withDetection none []
        { summary := "s", recommendations := [] } :=
  (null_term_amended false (Except.error ()) (Except.error ()) (Except.error ())
      (fun _ => Except.ok { summary := "s", recommendations := [] }) []
      { summary := "s", recommendations := [] }
      { summary := "s", recommendations := [] } rfl).1 rfl

/-- C10: the required-input validation of both search endpoints uses JS
truthiness, so a numeric latitude/longitude of `0`, or an empty text
query, is rejected with the 400 missing-input error before any
collaborator call, exactly as if the field were absent. -/
theorem truthiness_validation :
    (∀ (q lon : JsField) (s : Except Unit SearchResult × List Call),
      aiSearchHandler q (JsField.num 0) lon s =
        (HandlerOut.badRequest "Query, latitude, and longitude are required.", []) ∧
      aiSearchHandler q (JsField.num 0) lon s =
        aiSearchHandler q JsField.missing lon s) ∧
    (∀ (q lat : JsField) (s : Except Unit SearchResult × List Call),
      aiSearchHandler q lat (JsField.num 0) s =
        (HandlerOut.badRequest "Query, latitude, and longitude are required.", []) ∧
      aiSearchHandler q lat (JsField.num 0) s =
        aiSearchHandler q lat JsField.missing s) ∧
    (∀ (lat lon : JsField) (s : Except Unit SearchResult × List Call),
      aiSearchHandler (JsField.str "") lat lon s =
        (HandlerOut.badRequest "Query, latitude, and longitude are required.", []) ∧
      aiSearchHandler (JsField.str "") lat lon s =
        aiSearchHandler JsField.missing lat lon s) ∧
    (∀ lon : JsField,
      imageSearchValidation true (JsField.num 0) lon =
        some "latitude and longitude are required." ∧
      imageSearchValidation true (JsField.num 0) lon =
        imageSearchValidation true JsField.missing lon) ∧
    (∀ lat : JsField,
      imageSearchValidation true lat (JsField.num 0) =
        some "latitude and longitude are required." ∧
      imageSearchValidation true lat (JsField.num 0) =
        imageSearchValidation true lat JsField.missing) := by
  have h0 : fieldTruthy (JsField.num 0) = false := by decide
  have hs0 : fieldTruthy (JsField.str "") = false := by decide
  have hm : fieldTruthy JsField.missing = false := rfl
  refine ⟨fun q lon s => ⟨?_, ?_⟩, fun q lat s => ⟨?_, ?_⟩,
    fun lat lon s => ⟨?_, ?_⟩, fun lon => ⟨?_, ?_⟩, fun lat => ⟨?_, ?_⟩⟩ <;>
  · simp [aiSearchHandler, imageSearchValidation, h0, hs0, hm]

/-- C2: the deterministic ranking always returns `min 3 n` recommendations
for `n` candidates, with rank fields exactly `1..length`, contiguous and
starting at 1. -/
theorem ranking_output_shape (query : String) (latitude longitude : ℝ)
    (products : List ProductRow) :
    (deterministicRanking query latitude longitude products).recommendations.length =
      min 3 products.length ∧
    (deterministicRanking query latitude longitude products).recommendations.map
        (fun r => r.rank) =
      List.range' 1 (min 3 products.length) := by
  have hrec : (deterministicRanking query latitude longitude products).recommendations =
      rankedRecommendations latitude longitude products := rfl
  have hlen : (rankedRecommendations latitude longitude products).length =
      min 3 products.length := by
    simp [rankedRecommendations, sortedCandidates, List.length_mapIdx,
      List.length_take, List.length_insertionSort, List.length_map]
  rw [hrec]
  refine ⟨hlen, ?_⟩
  apply List.ext_getElem
  · simp [hlen, List.length_range']
  · intro i h1 h2
    rw [List.getElem_map, List.getElem_range']
    simp only [rankedRecommendations, List.getElem_mapIdx, mkRecommendation]
    omega

/-- The two products of the C1 counterexample: both have a `null` shop
join, hence both distances are `Infinity`; the strictly cheaper product is
listed second. -/
def cexExpensive : ProductRow :=
  { name := "Expensive", price := some 10, rating := some 1, shop_id := 1,
    shops := none }

def cexCheap : ProductRow :=
  { name := "Cheap", price := some 5, rating := some 1, shop_id := 1,
    shops := none }

/-- C1 counterexample: two candidates with equal (`Infinity`) distances and
different finite prices; the claim puts the cheaper one first, but the
comparator's `Infinity - Infinity` is `NaN`, which the sort treats as
"equal", so the original order — expensive first — is kept. -/
theorem ranking_tiebreak_counterexample :
    (enrichOne 0 0 cexExpensive).distance_km = JsNum.inf ∧
    (enrichOne 0 0 cexCheap).distance_km = JsNum.inf ∧
    (enrichOne 0 0 cexExpensive).price = JsNum.fin 10 ∧
    (enrichOne 0 0 cexCheap).price = JsNum.fin 5 ∧
    (5:ℝ) < 10 ∧
    (deterministicRanking "x" 0 0 [cexExpensive, cexCheap]).recommendations.map
        (fun r => r.product_name) = ["Expensive", "Cheap"] := by
  exact ⟨rfl, rfl, rfl, rfl, by norm_num, rfl⟩

/-- C1 amended: the deterministic path stable-sorts the candidates so that
any pair in output order satisfies `rankLe`: strictly nearer first;
equal *finite* distances broken by lower price first; equal finite prices
broken by higher rating first; but a pair tied at `Infinity` distance (or
at `Infinity` price with equal finite distance) is treated as equal by the
comparator (its subtraction is `NaN`), so input order is preserved there
instead of any price/rating tie-break.  A missing or non-finite price is
treated as `Infinity`, a missing rating as `0`. -/
theorem ranking_tiebreak_amended (latitude longitude : ℝ)
    (products : List ProductRow) :
    List.Pairwise rankLe (sortedCandidates latitude longitude products) ∧
    (sortedCandidates latitude longitude products).Perm
      (products.map (enrichOne latitude longitude)) ∧
    (∀ p : ProductRow, p.price = none →
      (enrichOne latitude longitude p).price = JsNum.inf) ∧
    (∀ p : ProductRow, p.rating = none →
      (enrichOne latitude longitude p).rating = 0) := by
  refine ⟨?_, List.perm_insertionSort candLe _, fun p hp => ?_, fun p hp => ?_⟩
  · exact List.Pairwise.imp (fun h => candLe_imp_rankLe _ _ h)
      (List.sorted_insertionSort candLe _)
  · simp [enrichOne, safeNumber, hp]
  · simp [enrichOne, safeNumber, hp]

/-- A product with no finite price and no rating, for the C1 witness. -/
def cexBare : ProductRow :=
  { name := "x", price := none, rating := none, shop_id := 1, shops := none }

/-- C1 amended witness: the missing-price and missing-rating defaults at a
concrete product. -/
theorem ranking_tiebreak_amended_witness :
    (enrichOne 0 0 cexBare).price = JsNum.inf ∧
    (enrichOne 0 0 cexBare).rating = 0 :=
  ⟨(ranking_tiebreak_amended 0 0 []).2.2.1 cexBare rfl,
   (ranking_tiebreak_amended 0 0 []).2.2.2 cexBare rfl⟩

/-- C6: the distance function (haversine, Earth radius 6371 km) is
symmetric, zero on identical points, and `Infinity` whenever any
coordinate of either point is missing. -/
theorem distance_properties :
    (∀ lat1 lon1 lat2 lon2 : ℝ,
      distanceKm (some lat1) (some lon1) (some lat2) (some lon2) =
        distanceKm (some lat2) (some lon2) (some lat1) (some lon1)) ∧
    (∀ lat lon : ℝ,
      distanceKm (some lat) (some lon) (some lat) (some lon) = JsNum.fin 0) ∧
    (∀ lat1 lon1 lat2 lon2 : Option ℝ,
      lat1 = none ∨ lon1 = none ∨ lat2 = none ∨ lon2 = none →
      distanceKm lat1 lon1 lat2 lon2 = JsNum.inf) := by
  refine ⟨?_, ?_, ?_⟩
  · intro lat1 lon1 lat2 lon2
    show JsNum.fin (haversine lat1 lon1 lat2 lon2) =
      JsNum.fin (haversine lat2 lon2 lat1 lon1)
    congr 1
    simp only [haversine]
    have h1 : toRad (lat2 - lat1) = -(toRad (lat1 - lat2)) := by
      unfold toRad; ring
    have h2 : toRad (lon2 - lon1) = -(toRad (lon1 - lon2)) := by
      unfold toRad; ring
    rw [h1, h2, neg_div, neg_div, Real.sin_neg, Real.sin_neg]
    ring_nf
  · intro lat lon
    show JsNum.fin (haversine lat lon lat lon) = JsNum.fin 0
    congr 1
    simp only [haversine]
    simp [toRad, sub_self, atan2, Real.sqrt_zero, Real.sqrt_one,
      Real.arctan_zero, zero_lt_one]
  · intro lat1 lon1 lat2 lon2 h
    rcases lat1 with _ | a <;> rcases lon1 with _ | b <;>
      rcases lat2 with _ | c <;> rcases lon2 with _ | d <;>
      first
        | rfl
        | (rcases h with h | h | h | h <;> exact Option.noConfusion h)

/-- C6 witness: a missing first latitude yields `Infinity`. -/
theorem distance_properties_witness :
    distanceKm none (some 1) (some 2) (some 3) = JsNum.inf :=
  distance_properties.2.2 none (some 1) (some 2) (some 3) (Or.inl rfl)

end SmartShop
